import Mathlib

/-!
# Verification of the exonum dispatcher and internal event scheduler

Shallow embedding of `exonum/src/runtime/dispatcher.rs` and
`exonum-node/src/events/internal.rs`.

Modelling conventions:
* Rust `u32`/`u64` identifiers are modelled as `Nat` (no claim depends on
  overflow of identifiers).
* `HashMap<K, V>` is modelled as an association list `List (K × V)`; the list
  order stands for the `HashMap`'s iteration order, which Rust leaves
  unspecified (it depends on the per-map random hash seed and on insertion
  history).  `insert` replaces the value of an existing key in place and
  appends a fresh key.
* `&mut` state threading is made explicit: a Rust method
  `fn f(&mut self, x) -> R` becomes `f : State → X → R × State`.
* The mpsc sender held by the dispatcher (`inner_requests_tx`) is modelled by
  two fields of the dispatcher state: a `tx_closed` flag (receiver hung up)
  and the log `sent` of requests successfully delivered to the channel.
* `Result<T, E>` becomes `Except E T`.
-/

namespace Exonum

/-! ## Basic data model (`exonum/src/runtime`, `exonum/src/messages`) -/

abbrev ServiceInstanceId := Nat
abbrev RuntimeId := Nat
abbrev MethodId := Nat

/-- Opaque content hash (`exonum::crypto::Hash`). -/
abbrev Hash := Nat

/-- Opaque byte string. -/
abbrev Bytes := List Nat

/-- A mutable, uncommitted storage view (`exonum_merkledb::Fork`), opaque. -/
abbrev Fork := List Nat

/-- A read-only storage view (`exonum_merkledb::Snapshot`), opaque. -/
abbrev Snapshot := Nat

/-- An opaque observable external effect of an `after_commit` hook. -/
abbrev Effect := Nat

/-- `ArtifactSpec {runtime_id: u32, raw_spec: bytes}`. -/
structure ArtifactSpec where
  runtime_id : RuntimeId
  raw_spec : Bytes
deriving DecidableEq, Repr

/-- `ServiceConstructor {instance_id, data}`. -/
structure ServiceConstructor where
  instance_id : ServiceInstanceId
  data : Bytes
deriving DecidableEq, Repr

/-- `CallInfo {instance_id, method_id}`. -/
structure CallInfo where
  instance_id : ServiceInstanceId
  method_id : MethodId
deriving DecidableEq, Repr

/-- `DeployStatus` as described by the spec (`Pending`/`Deployed`). -/
inductive DeployStatus where
  | Pending
  | Deployed
deriving DecidableEq, Repr

/-- `DeployError`: the dispatcher itself only produces `WrongRuntime`;
runtime-specific failures are carried by `Other`. -/
inductive DeployError where
  | WrongRuntime
  | Other (code : Nat)
deriving DecidableEq, Repr

/-- `InitError`: the dispatcher itself only produces `WrongRuntime`;
runtime-specific failures are carried by `Other`. -/
inductive InitError where
  | WrongRuntime
  | Other (code : Nat)
deriving DecidableEq, Repr

/-- `ExecutionError { code, description }`. -/
structure ExecutionError where
  code : Nat
  description : String
deriving DecidableEq, Repr

/-- `ExecutionError::with_description`. -/
def ExecutionError.with_description (code : Nat) (description : String) :
    ExecutionError :=
  ⟨code, description⟩

/-- Modelled from the spec: the numeric code `WRONG_RUNTIME` of the
dispatcher-level execution error lives in `runtime/error.rs`, which is not
among the available sources; its exact value is irrelevant to every claim,
only its identity as a fixed constant matters. -/
def WRONG_RUNTIME : Nat := 2

/-- Modelled from the spec: the `InternalRequest` type of the `exonum` core
crate (distinct from the node crate's `InternalRequest`), of which the
dispatcher only ever sends the API-surface rebuild signal `RestartApi`. -/
inductive CoreInternalRequest where
  | RestartApi
deriving DecidableEq, Repr

/-- Conversion `From<DeployError> for ExecutionError` (its exact code
assignment lives outside the available sources; it is opaque to all claims). -/
def DeployError.toExecutionError : DeployError → ExecutionError
  | DeployError.WrongRuntime => ExecutionError.with_description WRONG_RUNTIME "Wrong runtime"
  | DeployError.Other c => ⟨c, "deploy error"⟩

/-- Conversion `From<InitError> for ExecutionError` (its exact code
assignment lives outside the available sources; it is opaque to all claims). -/
def InitError.toExecutionError : InitError → ExecutionError
  | InitError.WrongRuntime => ExecutionError.with_description WRONG_RUNTIME "Wrong runtime"
  | InitError.Other c => ⟨c, "init error"⟩

/-! ## Association lists modelling `HashMap` -/

/-- `HashMap::get` on the association-list model. -/
def assocGet {α β : Type} [DecidableEq α] : List (α × β) → α → Option β
  | [], _ => none
  | (k, v) :: rest, k' => if k = k' then some v else assocGet rest k'

/-- `HashMap::insert` on the association-list model: replaces the value of an
existing key in place (iteration position preserved), appends a new key. -/
def assocInsert {α β : Type} [DecidableEq α] : List (α × β) → α → β → List (α × β)
  | [], k, v => [(k, v)]
  | (k0, v0) :: rest, k, v =>
    if k0 = k then (k0, v) :: rest else (k0, v0) :: assocInsert rest k v

/-! ## Actions and the runtime context -/

/-- `Action`: deferred dispatcher-level side effect. -/
inductive Action where
  | StartDeploy (artifact : ArtifactSpec)
  | InitService (artifact : ArtifactSpec) (constructor : ServiceConstructor)
deriving DecidableEq, Repr

/-- `RuntimeContext`: fork, author key, message hash, and the FIFO queue of
pending dispatcher actions. -/
structure RuntimeContext where
  fork : Fork
  author : Nat
  tx_hash : Hash
  actions : List Action
deriving DecidableEq, Repr

/-- Modelled from the spec: `RuntimeContext::dispatch_action` (not among the
available sources) appends an action at the back of the context's
strictly-ordered pending-action queue. -/
def RuntimeContext.dispatch_action (ctx : RuntimeContext) (a : Action) :
    RuntimeContext :=
  { ctx with actions := ctx.actions ++ [a] }

/-- Modelled from the spec: `RuntimeContext::take_dispatcher_actions` (not
among the available sources) drains the pending-action queue, returning the
queued actions in FIFO order and leaving the queue empty. -/
def RuntimeContext.take_dispatcher_actions (ctx : RuntimeContext) :
    List Action × RuntimeContext :=
  (ctx.actions, { ctx with actions := [] })

/-! ## The `Runtime` capability interface

A `dyn Runtime` trait object is modelled as a behaviour record over an
explicit local-state type `σ`, bundled with its current state.  Methods taking
`&mut self` thread `σ`; methods taking `&self` read it.  `after_commit` takes
`&self` and `&Fork`, so its only possible effects are external; they are made
observable as a list of opaque `Effect`s. -/

structure Runtime (σ : Type) where
  state : σ
  start_deploy : σ → ArtifactSpec → Except DeployError Unit × σ
  check_deploy_status : σ → ArtifactSpec → Bool → Except DeployError DeployStatus
  init_service : σ → RuntimeContext → ArtifactSpec → ServiceConstructor →
    Except InitError Unit × σ × RuntimeContext
  execute : σ → RuntimeContext → CallInfo → Bytes →
    Except ExecutionError Unit × RuntimeContext
  state_hashes : σ → Snapshot → List (ServiceInstanceId × List Hash)
  before_commit : σ → Fork → Fork
  after_commit : σ → Fork → List Effect

/-- Writes back the (possibly mutated) local state of the runtime stored at
key `id`, leaving the registry's iteration order untouched — this is what a
`get_mut` followed by in-place mutation does to a `HashMap`. -/
def updateRtState {σ : Type} :
    List (RuntimeId × Runtime σ) → RuntimeId → σ → List (RuntimeId × Runtime σ)
  | [], _, _ => []
  | (k, rt) :: rest, id, s =>
    if k = id then (k, { rt with state := s }) :: rest
    else (k, rt) :: updateRtState rest id s

/-! ## The `Dispatcher` -/

/-- `Dispatcher { runtimes, runtime_lookup, inner_requests_tx }`.  The mpsc
sender is modelled by `tx_closed` (receiver hung up) plus the log `sent` of
successfully delivered requests. -/
structure Dispatcher (σ : Type) where
  runtimes : List (RuntimeId × Runtime σ)
  runtime_lookup : List (ServiceInstanceId × RuntimeId)
  tx_closed : Bool
  sent : List CoreInternalRequest

/-- `self.inner_requests_tx.clone().send(r).wait()` with the error logged and
swallowed: the request reaches the log only when the receiver is alive. -/
def Dispatcher.sendInternal {σ : Type} (d : Dispatcher σ) (r : CoreInternalRequest) :
    Dispatcher σ :=
  if d.tx_closed then d else { d with sent := d.sent ++ [r] }

/-- `Dispatcher::add_runtime`. -/
def Dispatcher.add_runtime {σ : Type} (d : Dispatcher σ) (id : RuntimeId)
    (rt : Runtime σ) : Dispatcher σ :=
  { d with runtimes := assocInsert d.runtimes id rt }

/-- `Dispatcher::notify_service_started`. -/
def Dispatcher.notify_service_started {σ : Type} (d : Dispatcher σ)
    (service_id : ServiceInstanceId) (artifact : ArtifactSpec) : Dispatcher σ :=
  { d with runtime_lookup := assocInsert d.runtime_lookup service_id artifact.runtime_id }

/-- `Dispatcher::start_deploy`. -/
def Dispatcher.start_deploy {σ : Type} (d : Dispatcher σ) (artifact : ArtifactSpec) :
    Except DeployError Unit × Dispatcher σ :=
  match assocGet d.runtimes artifact.runtime_id with
  | some rt =>
    let r := rt.start_deploy rt.state artifact
    (r.1, { d with runtimes := updateRtState d.runtimes artifact.runtime_id r.2 })
  | none => (Except.error DeployError.WrongRuntime, d)

/-- `Dispatcher::check_deploy_status` (takes `&self`: no state change). -/
def Dispatcher.check_deploy_status {σ : Type} (d : Dispatcher σ)
    (artifact : ArtifactSpec) (cancel_if_not_complete : Bool) :
    Except DeployError DeployStatus :=
  match assocGet d.runtimes artifact.runtime_id with
  | some rt => rt.check_deploy_status rt.state artifact cancel_if_not_complete
  | none => Except.error DeployError.WrongRuntime

/-- `Dispatcher::init_service`. -/
def Dispatcher.init_service {σ : Type} (d : Dispatcher σ) (ctx : RuntimeContext)
    (artifact : ArtifactSpec) (constructor : ServiceConstructor) :
    Except InitError Unit × Dispatcher σ × RuntimeContext :=
  match assocGet d.runtimes artifact.runtime_id with
  | some rt =>
    let r := rt.init_service rt.state ctx artifact constructor
    let d1 : Dispatcher σ :=
      { d with runtimes := updateRtState d.runtimes artifact.runtime_id r.2.1 }
    let d2 := if r.1.isOk then d1.notify_service_started constructor.instance_id artifact
              else d1
    let d3 := d2.sendInternal CoreInternalRequest.RestartApi
    (r.1, d3, r.2.2)
  | none => (Except.error InitError.WrongRuntime, d, ctx)

/-- `Action::execute`. -/
def Action.execute {σ : Type} (a : Action) (d : Dispatcher σ) (ctx : RuntimeContext) :
    Except ExecutionError Unit × Dispatcher σ × RuntimeContext :=
  match a with
  | Action.StartDeploy artifact =>
    let r := d.start_deploy artifact
    (r.1.mapError DeployError.toExecutionError, r.2, ctx)
  | Action.InitService artifact constructor =>
    let r := d.init_service ctx artifact constructor
    (r.1.mapError InitError.toExecutionError, r.2.1, r.2.2)

/-- `.into_iter().try_for_each(|action| action.execute(self, context))`:
left-to-right application, short-circuiting on the first error. -/
def applyActions {σ : Type} (d : Dispatcher σ) (ctx : RuntimeContext) :
    List Action → Except ExecutionError Unit × Dispatcher σ × RuntimeContext
  | [] => (Except.ok (), d, ctx)
  | a :: rest =>
    match a.execute d ctx with
    | (Except.ok _, d', ctx') => applyActions d' ctx' rest
    | (Except.error e, d', ctx') => (Except.error e, d', ctx')

/-- `Dispatcher::execute`. -/
def Dispatcher.execute {σ : Type} (d : Dispatcher σ) (ctx : RuntimeContext)
    (call_info : CallInfo) (payload : Bytes) :
    Except ExecutionError Unit × Dispatcher σ × RuntimeContext :=
  match assocGet d.runtime_lookup call_info.instance_id with
  | none =>
    (Except.error (ExecutionError.with_description WRONG_RUNTIME "Wrong runtime"), d, ctx)
  | some runtime_id =>
    match assocGet d.runtimes runtime_id with
    | some rt =>
      match rt.execute rt.state ctx call_info payload with
      | (Except.ok _, ctx1) =>
        let taken := ctx1.take_dispatcher_actions
        applyActions d taken.2 taken.1
      | (Except.error e, ctx1) => (Except.error e, d, ctx1)
    | none =>
      (Except.error (ExecutionError.with_description WRONG_RUNTIME "Wrong runtime"), d, ctx)

/-- `Dispatcher::state_hashes`: `runtimes.iter().map(..).flatten().collect()`
in the registry's iteration order. -/
def Dispatcher.state_hashes {σ : Type} (d : Dispatcher σ) (snapshot : Snapshot) :
    List (ServiceInstanceId × List Hash) :=
  (d.runtimes.map (fun p => p.2.state_hashes p.2.state snapshot)).flatten

/-- `Dispatcher::before_commit`: `for (_, runtime) in &self.runtimes` in the
registry's iteration order, each hook mutating the fork. -/
def Dispatcher.before_commit {σ : Type} (d : Dispatcher σ) (fork : Fork) : Fork :=
  d.runtimes.foldl (fun f p => p.2.before_commit p.2.state f) fork

/-- `Dispatcher::after_commit`: `for (_, runtime) in &self.runtimes` in the
registry's iteration order; the hooks' external effects, concatenated. -/
def Dispatcher.after_commit {σ : Type} (d : Dispatcher σ) (fork : Fork) : List Effect :=
  (d.runtimes.map (fun p => p.2.after_commit p.2.state fork)).flatten

/-! ## `DispatcherBuilder`

`RustRuntime` (the distinguished native runtime) is defined outside the
available sources; only the facts the builder relies on are modelled, each
from the spec's words. -/

/-- `RustRuntime::ID` — the native runtime's well-known identifier
(`native=0` per the spec's interface reservations). -/
def RustRuntime.ID : RuntimeId := 0

/-- `BuiltinService { factory, instance_id, instance_name }`.  The opaque
service factory is modelled by the update `factory_update` it induces on the
native runtime's bookkeeping state together with the raw artifact spec
`factory_raw` it advertises. -/
structure BuiltinService (σ : Type) where
  factory_update : σ → σ
  factory_raw : Bytes
  instance_id : ServiceInstanceId
  instance_name : String

/-- `DispatcherBuilder { builtin_runtime, dispatcher }`. -/
structure DispatcherBuilder (σ : Type) where
  builtin_runtime : Runtime σ
  dispatcher : Dispatcher σ

/-- `Dispatcher::with_runtimes` with an empty registry, i.e.
`Dispatcher::new(requests)`: empty `runtimes`, empty `runtime_lookup`, and
the given channel state. -/
def Dispatcher.new (σ : Type) (tx_closed : Bool) : Dispatcher σ :=
  { runtimes := [], runtime_lookup := [], tx_closed := tx_closed, sent := [] }

/-- `DispatcherBuilder::new(requests)`. -/
def DispatcherBuilder.new (σ : Type) (builtin : Runtime σ) (tx_closed : Bool) :
    DispatcherBuilder σ :=
  { builtin_runtime := builtin, dispatcher := Dispatcher.new σ tx_closed }

/-- Modelled from the spec: `RustRuntime::add_builtin_service` (not among the
available sources) registers the service instance in the native runtime's
bookkeeping and returns the artifact spec of the built-in service, whose
`runtime_id` is the native runtime's well-known identifier. -/
def RustRuntime.add_builtin_service {σ : Type} (rt : Runtime σ)
    (service : BuiltinService σ) : ArtifactSpec × Runtime σ :=
  (⟨RustRuntime.ID, service.factory_raw⟩,
   { rt with state := service.factory_update rt.state })

/-- `DispatcherBuilder::with_builtin_service`: registers the instance in the
native runtime, then records the instance in the dispatcher via
`notify_service_started`. -/
def DispatcherBuilder.with_builtin_service {σ : Type} (b : DispatcherBuilder σ)
    (service : BuiltinService σ) : DispatcherBuilder σ :=
  let r := RustRuntime.add_builtin_service b.builtin_runtime service
  { builtin_runtime := r.2,
    dispatcher := b.dispatcher.notify_service_started service.instance_id r.1 }

/-- `DispatcherBuilder::with_service_factory`: only touches the native
runtime's factory bookkeeping, modelled as a state update. -/
def DispatcherBuilder.with_service_factory {σ : Type} (b : DispatcherBuilder σ)
    (factory_update : σ → σ) : DispatcherBuilder σ :=
  { b with builtin_runtime :=
      { b.builtin_runtime with state := factory_update b.builtin_runtime.state } }

/-- `DispatcherBuilder::with_runtime`. -/
def DispatcherBuilder.with_runtime {σ : Type} (b : DispatcherBuilder σ)
    (id : RuntimeId) (rt : Runtime σ) : DispatcherBuilder σ :=
  { b with dispatcher := b.dispatcher.add_runtime id rt }

/-- `DispatcherBuilder::finalize`: registers the native runtime under its
well-known identifier and returns the dispatcher. -/
def DispatcherBuilder.finalize {σ : Type} (b : DispatcherBuilder σ) : Dispatcher σ :=
  b.dispatcher.add_runtime RustRuntime.ID b.builtin_runtime

/-- One step of the builder protocol (used to quantify over all dispatchers
reachable from `DispatcherBuilder::new` by builder calls). -/
inductive BuilderStep (σ : Type) where
  | builtinService (service : BuiltinService σ)
  | serviceFactory (factory_update : σ → σ)
  | runtime (id : RuntimeId) (rt : Runtime σ)

/-- Applies one builder call. -/
def DispatcherBuilder.applyStep {σ : Type} (b : DispatcherBuilder σ) :
    BuilderStep σ → DispatcherBuilder σ
  | BuilderStep.builtinService s => b.with_builtin_service s
  | BuilderStep.serviceFactory f => b.with_service_factory f
  | BuilderStep.runtime id rt => b.with_runtime id rt

/-- The dispatcher produced by `finalize` after an arbitrary sequence of
builder calls starting from `DispatcherBuilder::new`. -/
def buildDispatcher {σ : Type} (builtin : Runtime σ) (tx_closed : Bool)
    (steps : List (BuilderStep σ)) : Dispatcher σ :=
  (steps.foldl DispatcherBuilder.applyStep (DispatcherBuilder.new σ builtin tx_closed)).finalize

/-! ## The internal event scheduler (`exonum-node/src/events/internal.rs`) -/

/-- A decoded, verified consensus message, opaque. -/
abbrev Message := List Nat

/-- `InternalEvent` of the node crate. -/
inductive InternalEvent where
  | MessageVerified (msg : Message)
  | Timeout (timeout : Nat)
  | JumpToRound (height : Nat) (round : Nat)
  | Shutdown
deriving DecidableEq, Repr

/-- `InternalRequest` of the node crate (the four variants matched by
`InternalPart::run`).  A `Timeout` request carries the deadline
(`SystemTime`, modelled as an integer instant) and the timeout payload. -/
inductive InternalRequest where
  | VerifyMessage (raw : Bytes)
  | Timeout (time : Int) (timeout : Nat)
  | JumpToRound (height : Nat) (round : Nat)
  | Shutdown
deriving DecidableEq, Repr

/-- `time.duration_since(SystemTime::now()).unwrap_or_else(|_| 0)`:
an already-past deadline collapses to a zero duration, never a negative
sleep. -/
def durationSince (time now : Int) : Nat :=
  (time - now).toNat

/-- `InternalPart::send_event`: `sender.send(event).then(|_| Ok(()))` — the
send outcome is discarded, the composed future always resolves `Ok`. -/
def InternalPart.send_event (rxClosed : Bool) (event : InternalEvent) :
    List InternalEvent × Except Unit Unit :=
  (if rxClosed then [] else [event], Except.ok ())

/-- `InternalPart::verify_message`: decodes/verifies the raw bytes (the
cryptographic step `SignedMessage::from_bytes` / `into_verified` is not among
the available sources and is abstracted as the `decode` parameter, per the
spec's words); on success sends a `MessageVerified` event, on failure the
error is mapped to `()` (`map_err(drop)`) and nothing is sent.  Returns the
events delivered to the channel and the future's result. -/
def InternalPart.verify_message (decode : Bytes → Option Message)
    (rxClosed : Bool) (raw : Bytes) : List InternalEvent × Except Unit Unit :=
  match decode raw with
  | some msg => InternalPart.send_event rxClosed (InternalEvent.MessageVerified msg)
  | none => ([], Except.error ())

/-- A task handed to the executor by one iteration of the scheduler loop. -/
inductive SpawnedTask where
  | Verify (raw : Bytes)
  | TimeoutTask (duration : Nat) (timeout : Nat)
  | SendEvent (event : InternalEvent)
deriving DecidableEq, Repr

/-- Environment of one loop iteration: the request pulled from
`internal_requests_rx`, whether `internal_tx.is_closed()` held when checked,
the current time observed by `SystemTime::now()`, and whether
`handle.spawn`/`handle.spawn_std` accepted the task. -/
structure SchedulerStep where
  request : InternalRequest
  rxClosed : Bool
  now : Int
  spawnOk : Bool
deriving DecidableEq, Repr

/-- Whether the request's branch spawns through the fallible
`handle.spawn`/`handle.spawn_std` (followed by `.map_err(log_error)?`);
`VerifyMessage` instead uses the infallible `tokio_02::spawn`. -/
def InternalRequest.usesHandleSpawn : InternalRequest → Bool
  | InternalRequest.VerifyMessage _ => false
  | _ => true

/-- How `cycle` (the `for_each` future inside `InternalPart::run`) finished. -/
inductive RunExit where
  | RxClosed
  | SpawnFailed
  | StreamEnded
deriving DecidableEq, Repr

/-- The `for_each` loop of `InternalPart::run` over a finite prefix of the
request stream: returns the tasks handed to the executor in order, how the
loop finished, and the requests left unprocessed. -/
def InternalPart.runLoop :
    List SchedulerStep → List SpawnedTask × RunExit × List SchedulerStep
  | [] => ([], RunExit.StreamEnded, [])
  | step :: rest =>
    if step.rxClosed then ([], RunExit.RxClosed, rest)
    else
      match step.request with
      | InternalRequest.VerifyMessage raw =>
        let r := InternalPart.runLoop rest
        (SpawnedTask.Verify raw :: r.1, r.2)
      | InternalRequest.Timeout time timeout =>
        if step.spawnOk then
          let r := InternalPart.runLoop rest
          (SpawnedTask.TimeoutTask (durationSince time step.now) timeout :: r.1, r.2)
        else ([], RunExit.SpawnFailed, rest)
      | InternalRequest.JumpToRound height round =>
        if step.spawnOk then
          let r := InternalPart.runLoop rest
          (SpawnedTask.SendEvent (InternalEvent.JumpToRound height round) :: r.1, r.2)
        else ([], RunExit.SpawnFailed, rest)
      | InternalRequest.Shutdown =>
        if step.spawnOk then
          let r := InternalPart.runLoop rest
          (SpawnedTask.SendEvent InternalEvent.Shutdown :: r.1, r.2)
        else ([], RunExit.SpawnFailed, rest)

/-- The closure-level result of `cycle`: the closure returns `Err(())` when
the event receiver hung up and propagates `Err(())` (via `?`) when a spawn
fails; exhausting the stream completes the `for_each` with `Ok(())`. -/
def RunExit.cycleResult : RunExit → Except Unit Unit
  | RunExit.RxClosed => Except.error ()
  | RunExit.SpawnFailed => Except.error ()
  | RunExit.StreamEnded => Except.ok ()

/-- `InternalPart::run`: the `for_each` cycle followed by `cycle.or_else(Ok)`,
which converts the closure-level error into a successful resolution. -/
def InternalPart.run (steps : List SchedulerStep) :
    Except Unit Unit × List SpawnedTask × List SchedulerStep :=
  let r := InternalPart.runLoop steps
  (match RunExit.cycleResult r.2.1 with
   | Except.ok u => Except.ok u
   | Except.error e => Except.ok e,
   r.1, r.2.2)

/-! ## Invariant of the routing table (spec §3) -/

/-- Every instance id present in the routing table references a runtime
present in the registry. -/
def lookupOk {σ : Type} (runtimes : List (RuntimeId × Runtime σ))
    (lookup : List (ServiceInstanceId × RuntimeId)) : Prop :=
  ∀ p ∈ lookup, (assocGet runtimes p.2).isSome = true

/-- Every instance id present in `runtime_lookup` references a runtime
present in `runtimes`. -/
def Dispatcher.lookupInv {σ : Type} (d : Dispatcher σ) : Prop :=
  lookupOk d.runtimes d.runtime_lookup

instance {σ : Type} (runtimes : List (RuntimeId × Runtime σ))
    (lookup : List (ServiceInstanceId × RuntimeId)) :
    Decidable (lookupOk runtimes lookup) :=
  inferInstanceAs (Decidable (∀ p ∈ lookup, (assocGet runtimes p.2).isSome = true))

instance {σ : Type} (d : Dispatcher σ) : Decidable d.lookupInv :=
  inferInstanceAs (Decidable (lookupOk d.runtimes d.runtime_lookup))

/-- The task handed to the executor for a given processed request. -/
def stepTask (s : SchedulerStep) : SpawnedTask :=
  match s.request with
  | InternalRequest.VerifyMessage raw => SpawnedTask.Verify raw
  | InternalRequest.Timeout time timeout =>
    SpawnedTask.TimeoutTask (durationSince time s.now) timeout
  | InternalRequest.JumpToRound height round =>
    SpawnedTask.SendEvent (InternalEvent.JumpToRound height round)
  | InternalRequest.Shutdown => SpawnedTask.SendEvent InternalEvent.Shutdown

/-! ## Concrete fixtures (in the spirit of the source's `SampleRuntime` tests) -/

/-- A minimal runtime over trivial local state whose calls all succeed. -/
def unitRuntime : Runtime Unit where
  state := ()
  start_deploy := fun s _ => (Except.ok (), s)
  check_deploy_status := fun _ _ _ => Except.ok DeployStatus.Deployed
  init_service := fun s ctx _ _ => (Except.ok (), s, ctx)
  execute := fun _ ctx _ _ => (Except.ok (), ctx)
  state_hashes := fun _ _ => []
  before_commit := fun _ f => f
  after_commit := fun _ _ => []

/-- A runtime whose hooks are observably distinct from `hashRuntimeB`. -/
def hashRuntimeA : Runtime Unit :=
  { unitRuntime with
    state_hashes := fun _ _ => [(0, [1])]
    before_commit := fun _ f => f ++ [10]
    after_commit := fun _ _ => [10] }

/-- A runtime whose hooks are observably distinct from `hashRuntimeA`. -/
def hashRuntimeB : Runtime Unit :=
  { unitRuntime with
    state_hashes := fun _ _ => [(1, [2])]
    before_commit := fun _ f => f ++ [20]
    after_commit := fun _ _ => [20] }

/-- A dispatcher holding runtimes `{0 ↦ A, 1 ↦ B}` whose registry iterates
`A` before `B`. -/
def dOrder1 : Dispatcher Unit :=
  { runtimes := [(0, hashRuntimeA), (1, hashRuntimeB)], runtime_lookup := [],
    tx_closed := false, sent := [] }

/-- A dispatcher holding the same set of runtimes `{0 ↦ A, 1 ↦ B}` whose
registry iterates `B` before `A` (a possible iteration order of a `HashMap`
with a different seed or insertion history). -/
def dOrder2 : Dispatcher Unit :=
  { runtimes := [(1, hashRuntimeB), (0, hashRuntimeA)], runtime_lookup := [],
    tx_closed := false, sent := [] }

/-- An empty runtime context. -/
def ctxW : RuntimeContext := { fork := [], author := 0, tx_hash := 0, actions := [] }

/-- A dispatcher with the single runtime id `0` and one registered instance. -/
def dW : Dispatcher Unit :=
  { runtimes := [(0, unitRuntime)], runtime_lookup := [(0, 0)],
    tx_closed := false, sent := [] }

/-- An artifact addressing the unregistered runtime id `5`. -/
def artifactBad : ArtifactSpec := ⟨5, []⟩

/-- An artifact addressing the registered runtime id `0`. -/
def artifactGood : ArtifactSpec := ⟨0, []⟩

/-- A constructor for instance id `7`. -/
def ctorW : ServiceConstructor := ⟨7, []⟩

/-- A built-in service fixture. -/
def svcW : BuiltinService Unit :=
  { factory_update := id, factory_raw := [], instance_id := 7,
    instance_name := "config" }

/-- A builder that registered a built-in service but has not been finalized:
its dispatcher has the dangling mapping `7 ↦ 0` with an empty registry. -/
def builderW : DispatcherBuilder Unit :=
  (DispatcherBuilder.new Unit unitRuntime false).with_builtin_service svcW

/-- The pre-finalize dispatcher of `builderW`. -/
def dPre : Dispatcher Unit := builderW.dispatcher

/-- A call addressed to the built-in instance id `7`. -/
def ciPre : CallInfo := ⟨7, 0⟩

/-- A call addressed to instance id `0`. -/
def ciW : CallInfo := ⟨0, 0⟩

/-- A scheduler step whose `JumpToRound` spawn is rejected by the executor. -/
def stepJumpFail : SchedulerStep :=
  { request := InternalRequest.JumpToRound 1 1, rxClosed := false, now := 0,
    spawnOk := false }

/-- A scheduler step whose `JumpToRound` spawn succeeds. -/
def stepJumpOk : SchedulerStep :=
  { request := InternalRequest.JumpToRound 2 2, rxClosed := false, now := 0,
    spawnOk := true }

/-- A scheduler step forwarding a `Shutdown` request. -/
def stepShutdown : SchedulerStep :=
  { request := InternalRequest.Shutdown, rxClosed := false, now := 0,
    spawnOk := true }

/-- A scheduler step carrying a timeout request after a `Shutdown`. -/
def stepTimeoutOk : SchedulerStep :=
  { request := InternalRequest.Timeout 9 3, rxClosed := false, now := 4,
    spawnOk := true }

/-- A concrete decoder fixture: `[1]` decodes to the message `[1]`, anything
else fails decoding or signature verification. -/
def decodeW : Bytes → Option Message :=
  fun raw => if raw = [1] then some [1] else none

/-- A scheduler step observed after the event receiver hung up. -/
def stepRxClosed : SchedulerStep :=
  { request := InternalRequest.JumpToRound 3 3, rxClosed := true, now := 0,
    spawnOk := true }

/-! ## Helper lemmas -/

theorem assocGet_assocInsert_self {α β : Type} [DecidableEq α]
    (l : List (α × β)) (k : α) (v : β) :
    assocGet (assocInsert l k v) k = some v := by
  induction l with
  | nil => simp [assocInsert, assocGet]
  | cons p rest ih =>
    obtain ⟨k0, v0⟩ := p
    by_cases h : k0 = k
    · subst h; simp [assocInsert, assocGet]
    · simp [assocInsert, assocGet, h, ih]

theorem mem_assocInsert {α β : Type} [DecidableEq α] {p : α × β}
    (l : List (α × β)) (k : α) (v : β) :
    p ∈ assocInsert l k v → p ∈ l ∨ p = (k, v) := by
  induction l with
  | nil =>
    intro h
    simp only [assocInsert, List.mem_singleton] at h
    exact Or.inr h
  | cons q rest ih =>
    obtain ⟨k0, v0⟩ := q
    intro h
    by_cases hk : k0 = k
    · rw [show assocInsert ((k0, v0) :: rest) k v = (k0, v) :: rest from by
        simp [assocInsert, hk]] at h
      rcases List.mem_cons.mp h with h1 | h1
      · exact Or.inr (by rw [h1, hk])
      · exact Or.inl (List.mem_cons_of_mem _ h1)
    · rw [show assocInsert ((k0, v0) :: rest) k v = (k0, v0) :: assocInsert rest k v from by
        simp [assocInsert, hk]] at h
      rcases List.mem_cons.mp h with h1 | h1
      · exact Or.inl (by rw [h1]; exact List.mem_cons_self _ _)
      · rcases ih h1 with h2 | h2
        · exact Or.inl (List.mem_cons_of_mem _ h2)
        · exact Or.inr h2

theorem assocGet_updateRtState_isSome {σ : Type}
    (l : List (RuntimeId × Runtime σ)) (id : RuntimeId) (s : σ) (k : RuntimeId) :
    (assocGet (updateRtState l id s) k).isSome = (assocGet l k).isSome := by
  induction l with
  | nil => rfl
  | cons p rest ih =>
    obtain ⟨k0, rt⟩ := p
    by_cases hid : k0 = id
    · simp only [updateRtState, if_pos hid, assocGet]
      by_cases hk : k0 = k
      · rw [if_pos hk, if_pos hk]
        rfl
      · rw [if_neg hk, if_neg hk]
    · simp only [updateRtState, if_neg hid, assocGet]
      by_cases hk : k0 = k
      · rw [if_pos hk, if_pos hk]
      · rw [if_neg hk, if_neg hk]
        exact ih

theorem sendInternal_runtime_lookup {σ : Type} (d : Dispatcher σ)
    (r : CoreInternalRequest) :
    (d.sendInternal r).runtime_lookup = d.runtime_lookup := by
  by_cases h : d.tx_closed <;> simp [Dispatcher.sendInternal, h]

theorem sendInternal_runtimes {σ : Type} (d : Dispatcher σ)
    (r : CoreInternalRequest) :
    (d.sendInternal r).runtimes = d.runtimes := by
  by_cases h : d.tx_closed <;> simp [Dispatcher.sendInternal, h]

theorem foldl_dispatch_action (ctx0 : RuntimeContext) (acts : List Action) :
    (acts.foldl RuntimeContext.dispatch_action ctx0).actions = ctx0.actions ++ acts := by
  induction acts generalizing ctx0 with
  | nil => simp
  | cons a rest ih =>
    simp [List.foldl_cons, ih, RuntimeContext.dispatch_action]

theorem applyActions_append_ok {σ : Type} (l1 : List Action) :
    ∀ (d0 : Dispatcher σ) (c0 : RuntimeContext) (l2 : List Action)
      (d1 : Dispatcher σ) (c1 : RuntimeContext),
      applyActions d0 c0 l1 = (Except.ok (), d1, c1) →
      applyActions d0 c0 (l1 ++ l2) = applyActions d1 c1 l2 := by
  induction l1 with
  | nil =>
    intro d0 c0 l2 d1 c1 h
    simp only [applyActions, Prod.mk.injEq] at h
    rw [List.nil_append, h.2.1, h.2.2]
  | cons a rest ih =>
    intro d0 c0 l2 d1 c1 h
    rcases he : a.execute d0 c0 with ⟨res, d', c'⟩
    cases res with
    | ok u =>
      simp only [applyActions, he] at h
      simp only [List.cons_append, applyActions, he]
      exact ih d' c' l2 d1 c1 h
    | error e =>
      simp only [applyActions, he, Prod.mk.injEq] at h
      exact absurd h.1 (by simp)

theorem applyActions_append_error {σ : Type} (l1 : List Action) :
    ∀ (d0 : Dispatcher σ) (c0 : RuntimeContext) (l2 : List Action)
      (e : ExecutionError) (d1 : Dispatcher σ) (c1 : RuntimeContext),
      applyActions d0 c0 l1 = (Except.error e, d1, c1) →
      applyActions d0 c0 (l1 ++ l2) = (Except.error e, d1, c1) := by
  induction l1 with
  | nil =>
    intro d0 c0 l2 e d1 c1 h
    simp only [applyActions, Prod.mk.injEq] at h
    exact absurd h.1 (by simp)
  | cons a rest ih =>
    intro d0 c0 l2 e d1 c1 h
    rcases he : a.execute d0 c0 with ⟨res, d', c'⟩
    cases res with
    | ok u =>
      simp only [applyActions, he] at h
      simp only [List.cons_append, applyActions, he]
      exact ih d' c' l2 e d1 c1 h
    | error e' =>
      simp only [applyActions, he, Prod.mk.injEq] at h
      simp only [List.cons_append, applyActions, he, Prod.mk.injEq]
      exact ⟨by rw [h.1], h.2.1, h.2.2⟩

theorem lookupOk_updateRtState {σ : Type} {runs : List (RuntimeId × Runtime σ)}
    {lookup : List (ServiceInstanceId × RuntimeId)} (id : RuntimeId) (s : σ)
    (h : lookupOk runs lookup) : lookupOk (updateRtState runs id s) lookup := by
  intro p hp
  rw [assocGet_updateRtState_isSome]
  exact h p hp

theorem start_deploy_preserves_lookupInv {σ : Type} (d : Dispatcher σ)
    (artifact : ArtifactSpec) (h : d.lookupInv) :
    (d.start_deploy artifact).2.lookupInv := by
  rcases hg : assocGet d.runtimes artifact.runtime_id with _ | rt
  · simp only [Dispatcher.start_deploy, hg]
    exact h
  · simp only [Dispatcher.start_deploy, hg]
    exact lookupOk_updateRtState artifact.runtime_id _ h

theorem init_service_preserves_lookupInv {σ : Type} (d : Dispatcher σ)
    (ctx : RuntimeContext) (artifact : ArtifactSpec) (c : ServiceConstructor)
    (h : d.lookupInv) :
    (d.init_service ctx artifact c).2.1.lookupInv := by
  rcases hg : assocGet d.runtimes artifact.runtime_id with _ | rt
  · simp only [Dispatcher.init_service, hg]
    exact h
  · simp only [Dispatcher.init_service, hg]
    intro p hp
    rw [sendInternal_runtime_lookup] at hp
    rw [sendInternal_runtimes]
    by_cases hok : (rt.init_service rt.state ctx artifact c).1.isOk
    · rw [if_pos hok] at hp ⊢
      simp only [Dispatcher.notify_service_started] at hp ⊢
      rcases mem_assocInsert _ _ _ hp with hmem | heq
      · exact lookupOk_updateRtState artifact.runtime_id _ h p hmem
      · rw [heq]
        show (assocGet (updateRtState d.runtimes artifact.runtime_id
          (rt.init_service rt.state ctx artifact c).2.1) artifact.runtime_id).isSome = true
        rw [assocGet_updateRtState_isSome, hg]
        rfl
    · rw [if_neg hok] at hp ⊢
      exact lookupOk_updateRtState artifact.runtime_id _ h p hp

theorem action_execute_preserves_lookupInv {σ : Type} (a : Action)
    (d : Dispatcher σ) (ctx : RuntimeContext) (h : d.lookupInv) :
    (a.execute d ctx).2.1.lookupInv := by
  cases a with
  | StartDeploy artifact =>
    exact start_deploy_preserves_lookupInv d artifact h
  | InitService artifact c =>
    exact init_service_preserves_lookupInv d ctx artifact c h

theorem applyActions_preserves_lookupInv {σ : Type} (acts : List Action) :
    ∀ (d : Dispatcher σ) (ctx : RuntimeContext), d.lookupInv →
      (applyActions d ctx acts).2.1.lookupInv := by
  induction acts with
  | nil => intro d ctx h; exact h
  | cons a rest ih =>
    intro d ctx h
    rcases he : a.execute d ctx with ⟨res, d', c'⟩
    have hd' : d'.lookupInv := by
      have h2 := action_execute_preserves_lookupInv a d ctx h
      rw [he] at h2
      exact h2
    cases res with
    | ok u =>
      simp only [applyActions, he]
      exact ih d' c' hd'
    | error e =>
      simp only [applyActions, he]
      exact hd'

theorem execute_preserves_lookupInv {σ : Type} (d : Dispatcher σ)
    (ctx : RuntimeContext) (ci : CallInfo) (p : Bytes) (h : d.lookupInv) :
    (d.execute ctx ci p).2.1.lookupInv := by
  rcases h1 : assocGet d.runtime_lookup ci.instance_id with _ | rid
  · simp only [Dispatcher.execute, h1]
    exact h
  · rcases h2 : assocGet d.runtimes rid with _ | rt
    · simp only [Dispatcher.execute, h1, h2]
      exact h
    · rcases h3 : rt.execute rt.state ctx ci p with ⟨res, ctx1⟩
      cases res with
      | ok u =>
        simp only [Dispatcher.execute, h1, h2, h3]
        exact applyActions_preserves_lookupInv _ d _ h
      | error e =>
        simp only [Dispatcher.execute, h1, h2, h3]
        exact h

theorem builder_lookup_rust {σ : Type} (steps : List (BuilderStep σ)) :
    ∀ (b : DispatcherBuilder σ),
      (∀ p ∈ b.dispatcher.runtime_lookup, p.2 = RustRuntime.ID) →
      ∀ p ∈ (steps.foldl DispatcherBuilder.applyStep b).dispatcher.runtime_lookup,
        p.2 = RustRuntime.ID := by
  induction steps with
  | nil => intro b hb; exact hb
  | cons s rest ih =>
    intro b hb
    apply ih
    cases s with
    | builtinService svc =>
      intro p hp
      rcases mem_assocInsert _ _ _ hp with hmem | heq
      · exact hb p hmem
      · rw [heq]
        rfl
    | serviceFactory f => exact hb
    | runtime id rt => exact hb

theorem buildDispatcher_lookupInv {σ : Type} (builtin : Runtime σ) (b : Bool)
    (steps : List (BuilderStep σ)) :
    (buildDispatcher builtin b steps).lookupInv := by
  intro p hp
  have hid : p.2 = RustRuntime.ID := by
    refine builder_lookup_rust steps (DispatcherBuilder.new σ builtin b) ?_ p hp
    intro q hq
    simp [DispatcherBuilder.new, Dispatcher.new] at hq
  rw [hid]
  show (assocGet (assocInsert _ RustRuntime.ID _) RustRuntime.ID).isSome = true
  rw [assocGet_assocInsert_self]
  rfl

theorem runLoop_rx_closed {s : SchedulerStep} (rest : List SchedulerStep)
    (h1 : s.rxClosed = true) :
    InternalPart.runLoop (s :: rest) = ([], RunExit.RxClosed, rest) := by
  simp [InternalPart.runLoop, h1]

theorem runLoop_spawn_fail {s : SchedulerStep} (rest : List SchedulerStep)
    (h1 : s.rxClosed = false) (h2 : s.request.usesHandleSpawn = true)
    (h3 : s.spawnOk = false) :
    InternalPart.runLoop (s :: rest) = ([], RunExit.SpawnFailed, rest) := by
  rcases hreq : s.request with raw | ⟨t, tmo⟩ | ⟨hh, rr⟩ | _
  · rw [hreq] at h2
    simp [InternalRequest.usesHandleSpawn] at h2
  · simp [InternalPart.runLoop, h1, h3, hreq]
  · simp [InternalPart.runLoop, h1, h3, hreq]
  · simp [InternalPart.runLoop, h1, h3, hreq]

theorem runLoop_all_processed (steps : List SchedulerStep) :
    (∀ s ∈ steps, s.rxClosed = false ∧
      (s.request.usesHandleSpawn = true → s.spawnOk = true)) →
    InternalPart.runLoop steps = (steps.map stepTask, RunExit.StreamEnded, []) := by
  induction steps with
  | nil => intro h; simp [InternalPart.runLoop]
  | cons s rest ih =>
    intro h
    obtain ⟨hrx, hsp⟩ := h s (List.mem_cons_self _ _)
    have hrest := ih (fun t ht => h t (List.mem_cons_of_mem _ ht))
    rcases hreq : s.request with raw | ⟨t, tmo⟩ | ⟨hh, rr⟩ | _
    · simp [InternalPart.runLoop, hrx, hreq, hrest, stepTask]
    · have hs : s.spawnOk = true := hsp (by rw [hreq]; rfl)
      simp [InternalPart.runLoop, hrx, hreq, hs, hrest, stepTask]
    · have hs : s.spawnOk = true := hsp (by rw [hreq]; rfl)
      simp [InternalPart.runLoop, hrx, hreq, hs, hrest, stepTask]
    · have hs : s.spawnOk = true := hsp (by rw [hreq]; rfl)
      simp [InternalPart.runLoop, hrx, hreq, hs, hrest, stepTask]

theorem run_resolves_ok (steps : List SchedulerStep) :
    (InternalPart.run steps).1 = Except.ok () := by
  cases hx : (InternalPart.runLoop steps).2.1 <;>
    simp [InternalPart.run, hx, RunExit.cycleResult]

/-! ## Claim theorems -/

/-- C1: for every `execute` call that reaches a registered runtime and whose
runtime call succeeds, the Actions present in the RuntimeContext queue are
applied against the Dispatcher in exactly the FIFO order in which they were
enqueued (enqueuing appends at the back, and the drained queue is applied
front to back); the first failing Action aborts application of all subsequent
Actions from the same call — the outcome does not depend on the aborted
tail — and its error is propagated as the result of `execute`, while the
dispatcher state produced by the Actions already applied before the failure
is kept. -/
theorem execute_applies_actions_fifo {σ : Type} (d : Dispatcher σ)
    (ctx : RuntimeContext) (ci : CallInfo) (payload : Bytes) (rid : RuntimeId)
    (rt : Runtime σ) (ctx1 : RuntimeContext)
    (h1 : assocGet d.runtime_lookup ci.instance_id = some rid)
    (h2 : assocGet d.runtimes rid = some rt)
    (h3 : rt.execute rt.state ctx ci payload = (Except.ok (), ctx1)) :
    d.execute ctx ci payload =
      applyActions d { ctx1 with actions := [] } ctx1.actions
    ∧ (∀ (ctx0 : RuntimeContext) (acts : List Action),
        (acts.foldl RuntimeContext.dispatch_action ctx0).actions =
          ctx0.actions ++ acts)
    ∧ (∀ (d0 : Dispatcher σ) (c0 : RuntimeContext) (l1 l2 : List Action)
        (d1 : Dispatcher σ) (c1 : RuntimeContext),
        applyActions d0 c0 l1 = (Except.ok (), d1, c1) →
        applyActions d0 c0 (l1 ++ l2) = applyActions d1 c1 l2)
    ∧ (∀ (d0 : Dispatcher σ) (c0 : RuntimeContext) (l1 l2 : List Action)
        (e : ExecutionError) (d1 : Dispatcher σ) (c1 : RuntimeContext),
        applyActions d0 c0 l1 = (Except.error e, d1, c1) →
        applyActions d0 c0 (l1 ++ l2) = (Except.error e, d1, c1)) := by
  refine ⟨?_, foldl_dispatch_action,
    fun d0 c0 l1 l2 d1 c1 => applyActions_append_ok l1 d0 c0 l2 d1 c1,
    fun d0 c0 l1 l2 e d1 c1 => applyActions_append_error l1 d0 c0 l2 e d1 c1⟩
  simp [Dispatcher.execute, h1, h2, h3, RuntimeContext.take_dispatcher_actions]

/-- Witness for C1 at a concrete dispatcher, runtime and context. -/
theorem execute_applies_actions_fifo_witness :
    dW.execute ctxW ciW [] = applyActions dW { ctxW with actions := [] } ctxW.actions
    ∧ (∀ (ctx0 : RuntimeContext) (acts : List Action),
        (acts.foldl RuntimeContext.dispatch_action ctx0).actions =
          ctx0.actions ++ acts)
    ∧ (∀ (d0 : Dispatcher Unit) (c0 : RuntimeContext) (l1 l2 : List Action)
        (d1 : Dispatcher Unit) (c1 : RuntimeContext),
        applyActions d0 c0 l1 = (Except.ok (), d1, c1) →
        applyActions d0 c0 (l1 ++ l2) = applyActions d1 c1 l2)
    ∧ (∀ (d0 : Dispatcher Unit) (c0 : RuntimeContext) (l1 l2 : List Action)
        (e : ExecutionError) (d1 : Dispatcher Unit) (c1 : RuntimeContext),
        applyActions d0 c0 l1 = (Except.error e, d1, c1) →
        applyActions d0 c0 (l1 ++ l2) = (Except.error e, d1, c1)) :=
  execute_applies_actions_fifo dW ctxW ciW [] 0 unitRuntime ctxW rfl rfl rfl

/-- C2: evaluating the hook aggregation at the failing input — two
dispatchers holding the same set of registered runtimes (the registry lists
are permutations of each other) invoke every runtime exactly once and
concatenate the results, but in their respective registry iteration orders,
which differ; hence the aggregation order is not a function of the set of
registered runtimes, contradicting the claimed stable deterministic order. -/
theorem hook_order_not_stable :
    dOrder1.runtimes.Perm dOrder2.runtimes
    ∧ dOrder1.state_hashes 0 = [(0, [1]), (1, [2])]
    ∧ dOrder2.state_hashes 0 = [(1, [2]), (0, [1])]
    ∧ dOrder1.state_hashes 0 ≠ dOrder2.state_hashes 0
    ∧ dOrder1.before_commit [] = [10, 20]
    ∧ dOrder2.before_commit [] = [20, 10]
    ∧ dOrder1.before_commit [] ≠ dOrder2.before_commit []
    ∧ dOrder1.after_commit [] = [10, 20]
    ∧ dOrder2.after_commit [] = [20, 10]
    ∧ dOrder1.after_commit [] ≠ dOrder2.after_commit [] := by
  refine ⟨?_, rfl, rfl, by decide, rfl, rfl, by decide, rfl, rfl, by decide⟩
  show ([(0, hashRuntimeA), (1, hashRuntimeB)] :
    List (RuntimeId × Runtime Unit)).Perm [(1, hashRuntimeB), (0, hashRuntimeA)]
  exact List.Perm.swap _ _ _

/-- C3: when `init_service` reaches a registered runtime, a successful
runtime-level initialization records the mapping
`constructor.instance_id ↦ artifact.runtime_id` in `runtime_lookup` before
returning, while a failed one leaves `runtime_lookup` unchanged. -/
theorem init_service_records_mapping {σ : Type} (d : Dispatcher σ)
    (ctx : RuntimeContext) (artifact : ArtifactSpec) (c : ServiceConstructor)
    (rt : Runtime σ)
    (h : assocGet d.runtimes artifact.runtime_id = some rt) :
    ((rt.init_service rt.state ctx artifact c).1.isOk = true →
      (d.init_service ctx artifact c).2.1.runtime_lookup =
        assocInsert d.runtime_lookup c.instance_id artifact.runtime_id
      ∧ assocGet (d.init_service ctx artifact c).2.1.runtime_lookup c.instance_id =
          some artifact.runtime_id)
    ∧ ((rt.init_service rt.state ctx artifact c).1.isOk = false →
      (d.init_service ctx artifact c).2.1.runtime_lookup = d.runtime_lookup) := by
  constructor
  · intro hok
    have hl : (d.init_service ctx artifact c).2.1.runtime_lookup =
        assocInsert d.runtime_lookup c.instance_id artifact.runtime_id := by
      simp [Dispatcher.init_service, h, hok, sendInternal_runtime_lookup,
        Dispatcher.notify_service_started]
    exact ⟨hl, by rw [hl, assocGet_assocInsert_self]⟩
  · intro hok
    simp [Dispatcher.init_service, h, hok, sendInternal_runtime_lookup]

/-- Witness for C3 at a concrete dispatcher whose runtime initializes
successfully. -/
theorem init_service_records_mapping_witness :
    (dW.init_service ctxW artifactGood ctorW).2.1.runtime_lookup =
      assocInsert dW.runtime_lookup ctorW.instance_id artifactGood.runtime_id
    ∧ assocGet (dW.init_service ctxW artifactGood ctorW).2.1.runtime_lookup
        ctorW.instance_id = some artifactGood.runtime_id :=
  (init_service_records_mapping dW ctxW artifactGood ctorW unitRuntime rfl).1 rfl

/-- C4 counterexample: when the executor rejects the spawn for the first
request, the loop does not continue — the second request is left unprocessed
and its task is never handed to the executor, refuting the claim that only
the one event is lost. -/
theorem spawn_failure_loses_later_events :
    InternalPart.runLoop [stepJumpFail, stepJumpOk] =
      ([], RunExit.SpawnFailed, [stepJumpOk])
    ∧ stepTask stepJumpOk ∉ (InternalPart.runLoop [stepJumpFail, stepJumpOk]).1 := by
  decide

/-- C4 amended: a failure to spawn the task of a `Timeout`, `JumpToRound` or
`Shutdown` request is logged and does not crash the run future (it resolves
without error), but it terminates the scheduler loop: the failing request's
event is lost and subsequent InternalRequests are not processed. -/
theorem spawn_failure_terminates_run (s : SchedulerStep)
    (rest : List SchedulerStep) (h1 : s.rxClosed = false)
    (h2 : s.request.usesHandleSpawn = true) (h3 : s.spawnOk = false) :
    InternalPart.runLoop (s :: rest) = ([], RunExit.SpawnFailed, rest)
    ∧ (InternalPart.run (s :: rest)).1 = Except.ok () :=
  ⟨runLoop_spawn_fail rest h1 h2 h3, run_resolves_ok (s :: rest)⟩

/-- Witness for the amended C4 at a concrete rejected spawn. -/
theorem spawn_failure_terminates_run_witness :
    InternalPart.runLoop [stepJumpFail] = ([], RunExit.SpawnFailed, [])
    ∧ (InternalPart.run [stepJumpFail]).1 = Except.ok () :=
  spawn_failure_terminates_run stepJumpFail [] rfl rfl rfl

/-- C5 counterexample: forwarding a `Shutdown` request does not terminate the
loop — with live channels the loop forwards the shutdown event and then
processes the next request, refuting the claimed termination condition (b). -/
theorem shutdown_not_terminating :
    InternalPart.runLoop [stepShutdown, stepTimeoutOk] =
      ([SpawnedTask.SendEvent InternalEvent.Shutdown, SpawnedTask.TimeoutTask 5 3],
        RunExit.StreamEnded, []) := by
  decide

/-- C5 amended: the scheduler loop terminates exactly when (a) the
internal-event receiver is closed — checked before processing each request
and a non-error termination of `run` —, (b) a `handle.spawn` for a
`Timeout`/`JumpToRound`/`Shutdown` request fails, or (c) the request stream
is exhausted; in every other case, including the forwarding of a `Shutdown`
request, the loop continues consuming the request stream, and `run` always
resolves without error. -/
theorem runLoop_termination_conditions :
    (∀ (s : SchedulerStep) (rest : List SchedulerStep), s.rxClosed = true →
      InternalPart.runLoop (s :: rest) = ([], RunExit.RxClosed, rest))
    ∧ (∀ (s : SchedulerStep) (rest : List SchedulerStep), s.rxClosed = false →
      s.request.usesHandleSpawn = true → s.spawnOk = false →
      InternalPart.runLoop (s :: rest) = ([], RunExit.SpawnFailed, rest))
    ∧ (∀ steps : List SchedulerStep,
      (∀ s ∈ steps, s.rxClosed = false ∧
        (s.request.usesHandleSpawn = true → s.spawnOk = true)) →
      InternalPart.runLoop steps = (steps.map stepTask, RunExit.StreamEnded, []))
    ∧ (∀ steps : List SchedulerStep, (InternalPart.run steps).1 = Except.ok ()) :=
  ⟨fun _ rest h1 => runLoop_rx_closed rest h1,
   fun _ rest h1 h2 h3 => runLoop_spawn_fail rest h1 h2 h3,
   runLoop_all_processed, run_resolves_ok⟩

/-- Witness for the amended C5: a closed-receiver step terminates the loop,
and a `Shutdown` followed by a timeout request is fully processed. -/
theorem runLoop_termination_conditions_witness :
    InternalPart.runLoop [stepRxClosed] = ([], RunExit.RxClosed, [])
    ∧ InternalPart.runLoop [stepShutdown, stepTimeoutOk] =
        ([stepShutdown, stepTimeoutOk].map stepTask, RunExit.StreamEnded, []) :=
  ⟨runLoop_termination_conditions.1 stepRxClosed [] rfl,
   runLoop_termination_conditions.2.2.1 [stepShutdown, stepTimeoutOk] (by decide)⟩

/-- C6: a `VerifyMessage` request whose bytes decode to a validly signed
message emits exactly one `MessageVerified` event whose content equals the
decoded message; on any decode or signature failure no event at all is
emitted — there is no error event, the failure is dropped. -/
theorem verify_message_exactly_one_event (decode : Bytes → Option Message)
    (raw : Bytes) (m : Message) :
    (decode raw = some m →
      (InternalPart.verify_message decode false raw).1 =
        [InternalEvent.MessageVerified m])
    ∧ (decode raw = none →
      (InternalPart.verify_message decode false raw).1 = []) := by
  constructor
  · intro h
    simp [InternalPart.verify_message, h, InternalPart.send_event]
  · intro h
    simp [InternalPart.verify_message, h]

/-- Witness for C6 at the concrete decoder fixture. -/
theorem verify_message_exactly_one_event_witness :
    (InternalPart.verify_message decodeW false [1]).1 =
      [InternalEvent.MessageVerified [1]]
    ∧ (InternalPart.verify_message decodeW false [0]).1 = [] :=
  ⟨(verify_message_exactly_one_event decodeW [1] [1]).1 rfl,
   (verify_message_exactly_one_event decodeW [0] [1]).2 rfl⟩

/-- C7: every dispatcher produced by `DispatcherBuilder::finalize` satisfies
the routing-table invariant (each instance id in `runtime_lookup` references
a registered runtime), and every public dispatcher operation —
`start_deploy`, `init_service`, `execute` and applying an Action — preserves
it (`check_deploy_status` takes the dispatcher immutably and returns no
state, so it cannot violate it). -/
theorem dispatcher_operations_preserve_lookupInv {σ : Type} :
    (∀ (builtin : Runtime σ) (b : Bool) (steps : List (BuilderStep σ)),
      (buildDispatcher builtin b steps).lookupInv)
    ∧ (∀ (d : Dispatcher σ) (artifact : ArtifactSpec),
      d.lookupInv → (d.start_deploy artifact).2.lookupInv)
    ∧ (∀ (d : Dispatcher σ) (ctx : RuntimeContext) (artifact : ArtifactSpec)
        (c : ServiceConstructor),
      d.lookupInv → (d.init_service ctx artifact c).2.1.lookupInv)
    ∧ (∀ (d : Dispatcher σ) (ctx : RuntimeContext) (ci : CallInfo) (p : Bytes),
      d.lookupInv → (d.execute ctx ci p).2.1.lookupInv)
    ∧ (∀ (a : Action) (d : Dispatcher σ) (ctx : RuntimeContext),
      d.lookupInv → (a.execute d ctx).2.1.lookupInv) :=
  ⟨buildDispatcher_lookupInv, start_deploy_preserves_lookupInv,
   init_service_preserves_lookupInv, execute_preserves_lookupInv,
   action_execute_preserves_lookupInv⟩

/-- Witness for C7 at a concrete built dispatcher and a concrete operation. -/
theorem dispatcher_operations_preserve_lookupInv_witness :
    (buildDispatcher unitRuntime false [BuilderStep.builtinService svcW]).lookupInv
    ∧ (dW.start_deploy artifactGood).2.lookupInv :=
  ⟨(dispatcher_operations_preserve_lookupInv (σ := Unit)).1 unitRuntime false
      [BuilderStep.builtinService svcW],
   (dispatcher_operations_preserve_lookupInv (σ := Unit)).2.1 dW artifactGood
      (by decide)⟩

/-- C8: when `init_service` reaches a registered runtime, a `RestartApi`
internal request is sent after the initialization attempt regardless of the
runtime result; when the channel receiver hung up the send fails and is
swallowed; the value returned by `init_service` is the runtime result in
both cases, unaffected by the send outcome. -/
theorem init_service_requests_restart {σ : Type} (d : Dispatcher σ)
    (ctx : RuntimeContext) (artifact : ArtifactSpec) (c : ServiceConstructor)
    (rt : Runtime σ)
    (h : assocGet d.runtimes artifact.runtime_id = some rt) :
    (d.tx_closed = false →
      (d.init_service ctx artifact c).2.1.sent =
        d.sent ++ [CoreInternalRequest.RestartApi])
    ∧ (d.tx_closed = true →
      (d.init_service ctx artifact c).2.1.sent = d.sent)
    ∧ (d.init_service ctx artifact c).1 =
        (rt.init_service rt.state ctx artifact c).1 := by
  refine ⟨?_, ?_, ?_⟩
  · intro htx
    by_cases hok : (rt.init_service rt.state ctx artifact c).1.isOk
    · simp [Dispatcher.init_service, h, hok, Dispatcher.sendInternal,
        Dispatcher.notify_service_started, htx]
    · simp [Dispatcher.init_service, h, hok, Dispatcher.sendInternal, htx]
  · intro htx
    by_cases hok : (rt.init_service rt.state ctx artifact c).1.isOk
    · simp [Dispatcher.init_service, h, hok, Dispatcher.sendInternal,
        Dispatcher.notify_service_started, htx]
    · simp [Dispatcher.init_service, h, hok, Dispatcher.sendInternal, htx]
  · by_cases hok : (rt.init_service rt.state ctx artifact c).1.isOk
    · simp [Dispatcher.init_service, h, hok]
    · simp [Dispatcher.init_service, h, hok]

/-- Witness for C8 at a concrete dispatcher with a live channel. -/
theorem init_service_requests_restart_witness :
    (dW.init_service ctxW artifactGood ctorW).2.1.sent =
      dW.sent ++ [CoreInternalRequest.RestartApi]
    ∧ (dW.init_service ctxW artifactGood ctorW).1 =
        (unitRuntime.init_service unitRuntime.state ctxW artifactGood ctorW).1 :=
  ⟨(init_service_requests_restart dW ctxW artifactGood ctorW unitRuntime rfl).1 rfl,
   (init_service_requests_restart dW ctxW artifactGood ctorW unitRuntime rfl).2.2⟩

/-- C9: for every artifact whose runtime id is not registered, `start_deploy`
and `check_deploy_status` return `DeployError::WrongRuntime` and
`init_service` returns `InitError::WrongRuntime`, all as total functions
(no panic) returning the dispatcher state unchanged. -/
theorem wrong_runtime_rejected {σ : Type} (d : Dispatcher σ)
    (artifact : ArtifactSpec) (cancel : Bool) (ctx : RuntimeContext)
    (c : ServiceConstructor)
    (h : assocGet d.runtimes artifact.runtime_id = none) :
    d.start_deploy artifact = (Except.error DeployError.WrongRuntime, d)
    ∧ d.check_deploy_status artifact cancel = Except.error DeployError.WrongRuntime
    ∧ d.init_service ctx artifact c = (Except.error InitError.WrongRuntime, d, ctx) := by
  refine ⟨?_, ?_, ?_⟩ <;>
    simp [Dispatcher.start_deploy, Dispatcher.check_deploy_status,
      Dispatcher.init_service, h]

/-- Witness for C9 at a concrete dispatcher and unregistered artifact. -/
theorem wrong_runtime_rejected_witness :
    dW.start_deploy artifactBad = (Except.error DeployError.WrongRuntime, dW)
    ∧ dW.check_deploy_status artifactBad false = Except.error DeployError.WrongRuntime
    ∧ dW.init_service ctxW artifactBad ctorW =
        (Except.error InitError.WrongRuntime, dW, ctxW) :=
  wrong_runtime_rejected dW artifactBad false ctxW ctorW rfl

/-- C10: when the instance id is present in `runtime_lookup` but the mapped
runtime id is absent from the registry (a dangling mapping, e.g. one created
by `with_builtin_service` before `finalize`), `execute` returns the
`WRONG_RUNTIME` execution error with description "Wrong runtime" and leaves
the dispatcher and context untouched — no runtime is invoked and no Action
is applied. -/
theorem execute_dangling_mapping {σ : Type} (d : Dispatcher σ)
    (ctx : RuntimeContext) (ci : CallInfo) (payload : Bytes) (rid : RuntimeId)
    (h1 : assocGet d.runtime_lookup ci.instance_id = some rid)
    (h2 : assocGet d.runtimes rid = none) :
    d.execute ctx ci payload =
      (Except.error (ExecutionError.with_description WRONG_RUNTIME "Wrong runtime"),
        d, ctx) := by
  simp [Dispatcher.execute, h1, h2]

/-- Witness for C10 at the pre-finalize builder dispatcher, whose mapping for
the built-in instance id dangles. -/
theorem execute_dangling_mapping_witness :
    dPre.execute ctxW ciPre [] =
      (Except.error (ExecutionError.with_description WRONG_RUNTIME "Wrong runtime"),
        dPre, ctxW) :=
  execute_dangling_mapping dPre ctxW ciPre [] RustRuntime.ID rfl rfl

end Exonum
